import Mathlib

/-! Shallow embedding of the GameLiftStreams share-URL infrastructure stack
(`src/lib/gls-infrastructure-stack.js`): the stream-group identifier
validator, the IAM permission grant, the API route table with its method
response contract, the CORS preflight policy, the Lambda compute unit, the
usage-instruction formatter, and the top-level app initialization that wires
them together.
-/

namespace GLS

/-- Characters matched by the regex character class `[a-zA-Z0-9]` used in
`validateStreamGroupId`. -/
def isRegexAlphanum (c : Char) : Bool :=
  (decide ('a' ≤ c) && decide (c ≤ 'z')) ||
  (decide ('A' ≤ c) && decide (c ≤ 'Z')) ||
  (decide ('0' ≤ c) && decide (c ≤ '9'))

/-- Translation of the anchored regex test `id.match(/^sg-[a-zA-Z0-9]{9,}$/)`
from `validateStreamGroupId`: the string is the literal prefix `sg-` followed
by nine or more characters from `[a-zA-Z0-9]`. -/
def matchesStreamGroupIdPattern (s : String) : Bool :=
  match s.data with
  | c1 :: c2 :: c3 :: rest =>
      c1 == 's' && c2 == 'g' && c3 == '-' &&
      decide (9 ≤ rest.length) && rest.all isRegexAlphanum
  | _ => false

/-- The message of the `Error` thrown by `validateStreamGroupId`. -/
def streamGroupIdErrorMessage : String :=
  "Invalid Stream Group ID format. Must match pattern: At least 9 alphanumeric characters after sg-"

/-- `validateStreamGroupId` from the source: throws (here: `Except.error`)
when the regex does not match, otherwise returns the input unchanged. -/
def validateStreamGroupId (id : String) : Except String String :=
  if !matchesStreamGroupIdPattern id then
    Except.error streamGroupIdErrorMessage
  else
    Except.ok id

/-- `iam.Effect` values used by the stack. -/
inductive Effect where
  | ALLOW
  | DENY
  deriving DecidableEq

/-- An `iam.PolicyStatement`: effect, action names, resource ARN patterns. -/
structure PolicyStatement where
  effect : Effect
  actions : List String
  resources : List String
  deriving DecidableEq

/-- The single policy statement added by `serverLambda.addToRolePolicy`:
three `gameliftstreams` actions against the wildcard application ARN and the
stream-group ARN embedding `props.streamGroupId`. -/
def buildGrants (streamGroupId : String) : List PolicyStatement :=
  [{ effect := Effect.ALLOW,
     actions := [
       "gameliftstreams:StartStreamSession",
       "gameliftstreams:GetStreamSession",
       "gameliftstreams:TerminateStreamSession"],
     resources := [
       "arn:aws:gameliftstreams:*:*:application/*",
       "arn:aws:gameliftstreams:*:*:streamgroup/" ++ streamGroupId] }]

/-- HTTP verbs appearing in the stack: `ANY` for the root and the catch-all
proxy, `POST` for the three named API methods. -/
inductive HttpVerb where
  | ANY
  | POST
  deriving DecidableEq

/-- One entry of `methodResponses` in `addMethod`: a status code and the
names of the always-present response headers declared for it. -/
structure MethodResponse where
  statusCode : String
  responseHeaders : List String
  deriving DecidableEq

/-- A declared route: path segments relative to the API root, HTTP verb,
whether it is the greedy catch-all proxy, and its method responses. -/
structure RouteEntry where
  pathSegments : List String
  verb : HttpVerb
  isProxy : Bool
  methodResponses : List MethodResponse
  deriving DecidableEq

/-- The `methodResponses` option passed by the `addMethod` helper: a 200
response with four header flags, plus bare 400 and 500 responses. -/
def methodResponseContract : List MethodResponse :=
  [{ statusCode := "200",
     responseHeaders := [
       "Content-Type",
       "Access-Control-Allow-Origin",
       "Access-Control-Allow-Headers",
       "Access-Control-Allow-Methods"] },
   { statusCode := "400", responseHeaders := [] },
   { statusCode := "500", responseHeaders := [] }]

/-- The `addMethod` helper from the stack constructor: declares one method on
a resource with the uniform `methodResponseContract`. -/
def addMethod (pathSegments : List String) (httpMethod : HttpVerb) : RouteEntry :=
  { pathSegments := pathSegments,
    verb := httpMethod,
    isProxy := false,
    methodResponses := methodResponseContract }

/-- The `api.root.addProxy` call: a greedy `\x7bproxy+\x7d` resource answering any
method, with no explicit method responses of its own. -/
def addProxy : RouteEntry :=
  { pathSegments := ["\x7bproxy+\x7d"],
    verb := HttpVerb.ANY,
    isProxy := true,
    methodResponses := [] }

/-- The route declarations of the stack constructor, in source order: root
(`ANY`), the three `/api/...` `POST` methods, then the catch-all proxy. -/
def buildRoutes : List RouteEntry :=
  [addMethod [] HttpVerb.ANY,
   addMethod ["api", "CreateStreamSession"] HttpVerb.POST,
   addMethod ["api", "GetSignalResponse"] HttpVerb.POST,
   addMethod ["api", "DestroyStreamSession"] HttpVerb.POST,
   addProxy]

/-- Modelled from the spec: request matching by the external gateway, which
is not part of this repository. A non-proxy route matches exactly its own
path; the greedy proxy matches any nonempty path. A route declared with verb
`ANY` accepts every verb, otherwise the verbs must agree. -/
def routeMatches (r : RouteEntry) (path : List String) (v : HttpVerb) : Bool :=
  (if r.isProxy then !path.isEmpty else r.pathSegments == path) &&
    (r.verb == HttpVerb.ANY || r.verb == v)

/-- Modelled from the spec: route resolution by the external gateway, which
prefers specific (non-proxy) path matches over the greedy catch-all
regardless of declaration order. -/
def resolveRoute (routes : List RouteEntry) (path : List String) (v : HttpVerb) :
    Option RouteEntry :=
  match routes.filter (fun r => !r.isProxy && routeMatches r path v) with
  | r :: _ => some r
  | [] => routes.find? (fun r => routeMatches r path v)

/-- `apigateway.Cors.ALL_ORIGINS` from aws-cdk-lib. -/
def corsAllOrigins : List String := ["*"]

/-- `apigateway.Cors.ALL_METHODS` from aws-cdk-lib. -/
def corsAllMethods : List String :=
  ["OPTIONS", "GET", "PUT", "POST", "DELETE", "PATCH", "HEAD"]

/-- The CORS preflight options of the `RestApi` construct. -/
structure CorsOptions where
  allowOrigins : List String
  allowMethods : List String
  allowHeaders : List String
  maxAgeSeconds : Nat
  deriving DecidableEq

/-- `cdk.Duration.days` expressed in seconds. -/
def durationDaysToSeconds (d : Nat) : Nat :=
  d * 24 * 60 * 60

/-- The `defaultCorsPreflightOptions` passed to the
`GameLiftStreamsShareUrlApi` `RestApi`. -/
def defaultCorsPreflightOptions : CorsOptions :=
  { allowOrigins := corsAllOrigins,
    allowMethods := corsAllMethods,
    allowHeaders := [
      "Content-Type",
      "X-Amz-Date",
      "Authorization",
      "X-Api-Key",
      "X-Amz-Security-Token"],
    maxAgeSeconds := durationDaysToSeconds 1 }

/-- The Lambda compute unit (`GameLiftStreamsServerLambda`) configuration. -/
structure LambdaFunction where
  runtime : String
  handler : String
  memorySize : Nat
  timeoutSeconds : Nat
  environment : List (String × String)
  architecture : String
  deriving DecidableEq

/-- The `lambda.Function` created by the stack constructor. -/
def serverLambda (streamGroupId applicationId : String) : LambdaFunction :=
  { runtime := "nodejs18.x",
    handler := "server.handler",
    memorySize := 512,
    timeoutSeconds := 300,
    environment := [
      ("STREAM_GROUP_ID", streamGroupId),
      ("APPLICATION_ID", applicationId),
      ("NODE_OPTIONS", "--enable-source-maps")],
    architecture := "arm64" }

/-- JavaScript whitespace characters as used by `String.prototype.trim`. -/
def isJsWhitespace (c : Char) : Bool :=
  c == ' ' || c == '\t' || c == '\n' || c == '\r' ||
  c == '\x0b' || c == '\x0c' || c == '\u00A0' || c == '\u1680' ||
  (decide ('\u2000' ≤ c) && decide (c ≤ '\u200A')) ||
  c == '\u2028' || c == '\u2029' || c == '\u202F' || c == '\u205F' ||
  c == '\u3000' || c == '\uFEFF'

/-- Drop JavaScript whitespace from both ends of a character list, as
`String.prototype.trim` does. -/
def trimChars (l : List Char) : List Char :=
  ((l.dropWhile isJsWhitespace).reverse.dropWhile isJsWhitespace).reverse

/-- JavaScript `String.prototype.trim`. -/
def jsTrim (s : String) : String :=
  String.mk (trimChars s.data)

/-- The part of the `generateInstructions` template literal before the
`${apiUrl}` interpolation (the banner, the share-URL line lead-in, and the
two-space indent of the URL line). -/
def instrPre : String :=
  "\n" ++
  "                                Instructions                                   " ++
  "\n\n\n" ++
  "  Here is your Amazon GameLift Streams Share URL:                                                                                                                                                                    " ++
  "\n" ++
  "  "

/-- The literal query-string piece of the template between `${apiUrl}` and
`${applicationId}`. -/
def instrQuery : String :=
  "?userId=Player1&applicationId="

/-- The literal location piece of the template directly after
`${applicationId}`. -/
def instrLoc : String :=
  "&location=us-east-2"

/-- The part of the template literal after the location piece (blank-ish
line, customization guidance, trailing blank line and indent). -/
def instrPost : String :=
  "\n" ++
  "  " ++
  "\n" ++
  "  Add or update arguments to your URL to share your stream:                             " ++
  "\n" ++
  "  ?userId=\x7bAdd Player Name\x7d&applicationId=\x7bAdd Application ID\x7d&location=\x7bAdd AWS Region\x7d " ++
  "\n\n" ++
  "    "

/-- `generateInstructions` from the source: the template literal with
`apiUrl` and `applicationId` interpolated, then `.trim()`. The
`streamGroupId` parameter is declared but never interpolated. -/
def generateInstructions (apiUrl streamGroupId applicationId : String) : String :=
  jsTrim (instrPre ++ apiUrl ++ instrQuery ++ applicationId ++ instrLoc ++ instrPost)

/-- JavaScript `value || defaultValue` on an optional environment variable:
an absent or empty string is falsy and selects the default. -/
def jsOrDefault (v : Option String) (d : String) : String :=
  match v with
  | none => d
  | some s => if s == "" then d else s

/-- The declarative graph assembled by the stack: compute units, permission
grants, routes, CORS policy, and the rendered usage instructions. -/
structure InfrastructureDescriptor where
  computeUnits : List LambdaFunction
  grants : List PolicyStatement
  routes : List RouteEntry
  cors : CorsOptions
  instructions : String

/-- The body of the `GLSInfrastructureStack` constructor: one Lambda, the
role-policy grant, the route table, the CORS policy, and the instructions
output derived from the API endpoint address. -/
def buildStack (streamGroupId applicationId apiUrl : String) : InfrastructureDescriptor :=
  { computeUnits := [serverLambda streamGroupId applicationId],
    grants := buildGrants streamGroupId,
    routes := buildRoutes,
    cors := defaultCorsPreflightOptions,
    instructions := generateInstructions apiUrl streamGroupId applicationId }

/-- The top-level app initialization: validate the stream-group identifier
(environment value or default `sg-000000000`) and, only on success,
construct the stack with the application identifier (environment value or
default `a-000000000`). A thrown validation error propagates and nothing is
assembled. -/
def initApp (streamGroupEnv applicationEnv : Option String) (apiUrl : String) :
    Except String InfrastructureDescriptor :=
  match validateStreamGroupId (jsOrDefault streamGroupEnv "sg-000000000") with
  | Except.error e => Except.error e
  | Except.ok streamGroupId =>
      Except.ok (buildStack streamGroupId (jsOrDefault applicationEnv "a-000000000") apiUrl)

lemma matchesStreamGroupIdPattern_iff (s : String) :
    matchesStreamGroupIdPattern s = true ↔
      ∃ t : List Char, s.data = 's' :: 'g' :: '-' :: t ∧ 9 ≤ t.length ∧
        ∀ c ∈ t, ('a' ≤ c ∧ c ≤ 'z') ∨ ('A' ≤ c ∧ c ≤ 'Z') ∨ ('0' ≤ c ∧ c ≤ '9') := by
  rcases hd : s.data with _ | ⟨c1, _ | ⟨c2, _ | ⟨c3, t⟩⟩⟩ <;>
    simp only [matchesStreamGroupIdPattern, hd] <;>
    simp [List.all_eq_true, isRegexAlphanum, Bool.and_eq_true, Bool.or_eq_true,
      decide_eq_true_eq, beq_iff_eq, List.cons.injEq, and_assoc, or_assoc]

/-- C1: `validateStreamGroupId s` succeeds and returns `s` unchanged exactly
when `s` is the prefix `sg-` followed by nine or more alphanumeric
characters, and fails with the `FormatError` message exactly when it is not;
in particular `sg-` plus nine alphanumerics (`sg-abcdef123`) passes, `sg-`
plus eight (`sg-abcdef12`) fails, and the empty string fails. -/
theorem validateStreamGroupId_ok_iff_pattern :
    (∀ s : String,
      (validateStreamGroupId s = Except.ok s ↔
        ∃ t : List Char, s.data = 's' :: 'g' :: '-' :: t ∧ 9 ≤ t.length ∧
          ∀ c ∈ t, ('a' ≤ c ∧ c ≤ 'z') ∨ ('A' ≤ c ∧ c ≤ 'Z') ∨ ('0' ≤ c ∧ c ≤ '9')) ∧
      (validateStreamGroupId s = Except.error streamGroupIdErrorMessage ↔
        ¬ ∃ t : List Char, s.data = 's' :: 'g' :: '-' :: t ∧ 9 ≤ t.length ∧
          ∀ c ∈ t, ('a' ≤ c ∧ c ≤ 'z') ∨ ('A' ≤ c ∧ c ≤ 'Z') ∨ ('0' ≤ c ∧ c ≤ '9'))) ∧
    validateStreamGroupId "sg-abcdef123" = Except.ok "sg-abcdef123" ∧
    validateStreamGroupId "sg-abcdef12" = Except.error streamGroupIdErrorMessage ∧
    validateStreamGroupId "" = Except.error streamGroupIdErrorMessage := by
  refine ⟨?_, rfl, rfl, rfl⟩
  intro s
  have h := matchesStreamGroupIdPattern_iff s
  by_cases hp : matchesStreamGroupIdPattern s = true
  · have hex := h.mp hp
    have hval : validateStreamGroupId s = Except.ok s := by
      simp [validateStreamGroupId, hp]
    refine ⟨?_, ?_⟩
    · rw [hval]
      exact iff_of_true rfl hex
    · rw [hval]
      exact iff_of_false (by simp) (not_not_intro hex)
  · have hfalse : matchesStreamGroupIdPattern s = false := by
      simpa using hp
    have hnex := fun hx => hp (h.mpr hx)
    have hval : validateStreamGroupId s = Except.error streamGroupIdErrorMessage := by
      simp [validateStreamGroupId, hfalse]
    refine ⟨?_, ?_⟩
    · rw [hval]
      exact iff_of_false (by simp) hnex
    · rw [hval]
      exact iff_of_true rfl hnex

/-- Witness for C1: the default identifier `sg-000000000` satisfies the
pattern characterization, obtained by applying the theorem at it. -/
theorem validateStreamGroupId_ok_iff_pattern_witness :
    ∃ t : List Char, (String.data "sg-000000000") = 's' :: 'g' :: '-' :: t ∧
      9 ≤ t.length ∧
      ∀ c ∈ t, ('a' ≤ c ∧ c ≤ 'z') ∨ ('A' ≤ c ∧ c ≤ 'Z') ∨ ('0' ≤ c ∧ c ≤ '9') :=
  (validateStreamGroupId_ok_iff_pattern.1 "sg-000000000").1.mp (by rfl)

/-- C2: for every stream-group identifier, the role policy consists of
exactly one allow grant whose actions are exactly the three streaming
operations (start, get-state, terminate of a stream session) and whose
resources are exactly the wildcard application pattern and the stream-group
pattern, the latter containing the identifier as a literal substring. -/
theorem buildGrants_single_scoped_grant (streamGroupId : String) :
    (buildGrants streamGroupId).length = 1 ∧
    ∀ grant ∈ buildGrants streamGroupId,
      grant.effect = Effect.ALLOW ∧
      grant.actions = [
        "gameliftstreams:StartStreamSession",
        "gameliftstreams:GetStreamSession",
        "gameliftstreams:TerminateStreamSession"] ∧
      grant.resources = [
        "arn:aws:gameliftstreams:*:*:application/*",
        "arn:aws:gameliftstreams:*:*:streamgroup/" ++ streamGroupId] ∧
      streamGroupId.data <:+:
        ("arn:aws:gameliftstreams:*:*:streamgroup/" ++ streamGroupId).data := by
  refine ⟨rfl, ?_⟩
  intro grant hg
  simp only [buildGrants, List.mem_singleton] at hg
  subst hg
  refine ⟨rfl, rfl, rfl, ?_⟩
  rw [String.data_append]
  exact (List.suffix_append _ _).isInfix

/-- Witness for C2: applying the theorem at `sg-abc123456` and the concrete
grant record shows the stream-group resource pattern embeds the identifier. -/
theorem buildGrants_single_scoped_grant_witness :
    ("sg-abc123456" : String).data <:+:
      ("arn:aws:gameliftstreams:*:*:streamgroup/" ++ "sg-abc123456" : String).data :=
  (((buildGrants_single_scoped_grant "sg-abc123456").2
    { effect := Effect.ALLOW,
      actions := [
        "gameliftstreams:StartStreamSession",
        "gameliftstreams:GetStreamSession",
        "gameliftstreams:TerminateStreamSession"],
      resources := [
        "arn:aws:gameliftstreams:*:*:application/*",
        "arn:aws:gameliftstreams:*:*:streamgroup/sg-abc123456"] }
    (by simp [buildGrants])).2.2.2)

/-- C3: the route table has exactly five entries: the root path with verb
`ANY`, the three named `/api` paths with verb `POST`, and exactly one
catch-all proxy answering any verb; four entries are non-proxy, so nothing
else is produced. -/
theorem buildRoutes_exact_route_table :
    buildRoutes.length = 5 ∧
    buildRoutes.countP
      (fun r => !r.isProxy && r.pathSegments == ([] : List String) &&
        r.verb == HttpVerb.ANY) = 1 ∧
    buildRoutes.countP
      (fun r => !r.isProxy && r.pathSegments == ["api", "CreateStreamSession"] &&
        r.verb == HttpVerb.POST) = 1 ∧
    buildRoutes.countP
      (fun r => !r.isProxy && r.pathSegments == ["api", "GetSignalResponse"] &&
        r.verb == HttpVerb.POST) = 1 ∧
    buildRoutes.countP
      (fun r => !r.isProxy && r.pathSegments == ["api", "DestroyStreamSession"] &&
        r.verb == HttpVerb.POST) = 1 ∧
    buildRoutes.countP (fun r => r.isProxy && r.verb == HttpVerb.ANY) = 1 ∧
    buildRoutes.countP (fun r => r.isProxy) = 1 ∧
    buildRoutes.countP (fun r => !r.isProxy) = 4 := by
  decide

/-- C8: the CORS policy allows all origins and all methods, allow-lists
exactly the five request headers, and caches preflight responses for one
day (86400 seconds). -/
theorem defaultCors_exact_policy :
    defaultCorsPreflightOptions.allowOrigins = ["*"] ∧
    defaultCorsPreflightOptions.allowMethods =
      ["OPTIONS", "GET", "PUT", "POST", "DELETE", "PATCH", "HEAD"] ∧
    defaultCorsPreflightOptions.allowHeaders =
      ["Content-Type", "X-Amz-Date", "Authorization", "X-Api-Key",
       "X-Amz-Security-Token"] ∧
    defaultCorsPreflightOptions.maxAgeSeconds = 86400 ∧
    durationDaysToSeconds 1 = 86400 := by
  refine ⟨rfl, rfl, rfl, rfl, rfl⟩

lemma buildRoutes_named_paths_unique :
    ∀ a ∈ buildRoutes, ∀ b ∈ buildRoutes,
      a.isProxy = false → b.isProxy = false →
      a.pathSegments = b.pathSegments → a = b := by
  decide

/-- C4: in any declaration order of the built route table, a request whose
path exactly matches a named (non-proxy) route and whose verb that route
accepts resolves to that named route and never to the catch-all proxy. -/
theorem resolveRoute_named_precedence
    (rs : List RouteEntry) (hperm : rs.Perm buildRoutes)
    (r : RouteEntry) (hr : r ∈ rs) (hproxy : r.isProxy = false)
    (v : HttpVerb) (hmatch : routeMatches r r.pathSegments v = true) :
    resolveRoute rs r.pathSegments v = some r := by
  have hrpred : (!r.isProxy && routeMatches r r.pathSegments v) = true := by
    simp [hproxy, hmatch]
  cases heq : rs.filter (fun x => !x.isProxy && routeMatches x r.pathSegments v) with
  | nil =>
      have hmem : r ∈ rs.filter
          (fun x => !x.isProxy && routeMatches x r.pathSegments v) :=
        List.mem_filter.mpr ⟨hr, hrpred⟩
      rw [heq] at hmem
      cases hmem
  | cons a as =>
      have ha : a ∈ rs.filter
          (fun x => !x.isProxy && routeMatches x r.pathSegments v) := by
        rw [heq]
        exact List.mem_cons_self a as
      obtain ⟨hamem, hapred⟩ := List.mem_filter.mp ha
      have hsplit : (!a.isProxy) = true ∧ routeMatches a r.pathSegments v = true := by
        simpa [Bool.and_eq_true] using hapred
      have haproxy : a.isProxy = false := by
        simpa using hsplit.1
      have hamatch := hsplit.2
      have hapath : a.pathSegments = r.pathSegments := by
        simp only [routeMatches, haproxy] at hamatch
        simp at hamatch
        exact hamatch.1
      have har : a = r :=
        buildRoutes_named_paths_unique a (hperm.mem_iff.mp hamem)
          r (hperm.mem_iff.mp hr) haproxy hproxy hapath
      simp [resolveRoute, heq, har]

/-- Witness for C4: with the declaration order reversed (catch-all first), a
`POST` to `/api/CreateStreamSession` still resolves to the named route. -/
theorem resolveRoute_named_precedence_witness :
    resolveRoute buildRoutes.reverse ["api", "CreateStreamSession"] HttpVerb.POST =
      some (addMethod ["api", "CreateStreamSession"] HttpVerb.POST) :=
  resolveRoute_named_precedence buildRoutes.reverse
    (List.reverse_perm buildRoutes)
    (addMethod ["api", "CreateStreamSession"] HttpVerb.POST)
    (by decide) rfl HttpVerb.POST (by decide)

/-- C5: when validation of the (environment-supplied or default)
stream-group identifier fails, app initialization yields only the
`FormatError` and no descriptor: no grant, route, or compute unit is
assembled. -/
theorem initApp_aborts_on_invalid_id
    (streamGroupEnv applicationEnv : Option String) (apiUrl : String)
    (h : ∃ e, validateStreamGroupId (jsOrDefault streamGroupEnv "sg-000000000") =
      Except.error e) :
    initApp streamGroupEnv applicationEnv apiUrl =
      Except.error streamGroupIdErrorMessage ∧
    ∀ d : InfrastructureDescriptor,
      initApp streamGroupEnv applicationEnv apiUrl ≠ Except.ok d := by
  obtain ⟨e, he⟩ := h
  have hmsg : validateStreamGroupId (jsOrDefault streamGroupEnv "sg-000000000") =
      Except.error streamGroupIdErrorMessage := by
    rw [validateStreamGroupId] at he ⊢
    by_cases hp : matchesStreamGroupIdPattern (jsOrDefault streamGroupEnv "sg-000000000") = true
    · rw [hp] at he
      simp at he
    · have hfalse : matchesStreamGroupIdPattern (jsOrDefault streamGroupEnv "sg-000000000") = false := by
        simpa using hp
      rw [hfalse]
      rfl
  have hinit : initApp streamGroupEnv applicationEnv apiUrl =
      Except.error streamGroupIdErrorMessage := by
    rw [initApp, hmsg]
  refine ⟨hinit, ?_⟩
  intro d hd
  rw [hinit] at hd
  exact Except.noConfusion hd

/-- Witness for C5: a too-short identifier in the environment aborts the
whole assembly with the format error. -/
theorem initApp_aborts_on_invalid_id_witness :
    initApp (some "sg-short") none "https://u.example/prod" =
      Except.error streamGroupIdErrorMessage :=
  (initApp_aborts_on_invalid_id (some "sg-short") none "https://u.example/prod"
    ⟨streamGroupIdErrorMessage, rfl⟩).1

/-- C7: every non-proxy route entry carries the same response contract: a
200 response declaring exactly the four header flags, and bare 400 and 500
response slots with no headers. -/
theorem named_routes_response_contract :
    ∀ r ∈ buildRoutes, r.isProxy = false →
      r.methodResponses = [
        { statusCode := "200",
          responseHeaders := [
            "Content-Type",
            "Access-Control-Allow-Origin",
            "Access-Control-Allow-Headers",
            "Access-Control-Allow-Methods"] },
        { statusCode := "400", responseHeaders := [] },
        { statusCode := "500", responseHeaders := [] }] := by
  decide

/-- Witness for C7: the root route carries the contract, by applying the
theorem at it. -/
theorem named_routes_response_contract_witness :
    (addMethod [] HttpVerb.ANY).methodResponses = [
      { statusCode := "200",
        responseHeaders := [
          "Content-Type",
          "Access-Control-Allow-Origin",
          "Access-Control-Allow-Headers",
          "Access-Control-Allow-Methods"] },
      { statusCode := "400", responseHeaders := [] },
      { statusCode := "500", responseHeaders := [] }] :=
  named_routes_response_contract (addMethod [] HttpVerb.ANY) (by decide) rfl

/-- C9: with no environment values the defaults `sg-000000000` and
`a-000000000` are used, validation succeeds, and the assembled descriptor
has exactly one compute unit, one grant, and five routes (four named plus
the catch-all proxy). -/
theorem initApp_defaults_descriptor (apiUrl : String) :
    validateStreamGroupId "sg-000000000" = Except.ok "sg-000000000" ∧
    initApp none none apiUrl =
      Except.ok (buildStack "sg-000000000" "a-000000000" apiUrl) ∧
    (buildStack "sg-000000000" "a-000000000" apiUrl).computeUnits.length = 1 ∧
    (buildStack "sg-000000000" "a-000000000" apiUrl).grants.length = 1 ∧
    (buildStack "sg-000000000" "a-000000000" apiUrl).routes.length = 5 ∧
    (buildStack "sg-000000000" "a-000000000" apiUrl).routes.countP
      (fun r => !r.isProxy) = 4 ∧
    (buildStack "sg-000000000" "a-000000000" apiUrl).routes.countP
      (fun r => r.isProxy) = 1 := by
  refine ⟨rfl, rfl, rfl, rfl, rfl, rfl, rfl⟩

/-- C10: the generated instructions do not depend on the `streamGroupId`
argument; any two stream-group identifiers yield identical output. -/
theorem generateInstructions_ignores_streamGroupId
    (baseUrl applicationId g1 g2 : String) :
    generateInstructions baseUrl g1 applicationId =
      generateInstructions baseUrl g2 applicationId :=
  rfl

lemma trimChars_append_middle (pre mid post : List Char)
    (h1 : (pre.dropWhile isJsWhitespace).isEmpty = false)
    (h2 : (post.reverse.dropWhile isJsWhitespace).isEmpty = false) :
    trimChars (pre ++ mid ++ post) =
      pre.dropWhile isJsWhitespace ++ mid ++
        (post.reverse.dropWhile isJsWhitespace).reverse := by
  unfold trimChars
  rw [List.append_assoc, List.dropWhile_append, h1]
  simp only [Bool.false_eq_true, if_false]
  rw [List.reverse_append, List.reverse_append, List.append_assoc,
    List.dropWhile_append, h2]
  simp only [Bool.false_eq_true, if_false]
  simp [List.reverse_append, List.append_assoc]

/-- C6: for all inputs the instruction formatter succeeds and its output
contains the literal substring
`baseUrl ++ "?userId=Player1&applicationId=" ++ applicationId ++ "&location=us-east-2"`;
in particular for base URL `https://x.example/prod` and application `a-1` it
contains `https://x.example/prod?userId=Player1&applicationId=a-1&location=us-east-2`. -/
theorem generateInstructions_contains_share_url :
    (∀ baseUrl streamGroupId applicationId : String,
      (baseUrl ++ "?userId=Player1&applicationId=" ++ applicationId ++
        "&location=us-east-2").data <:+:
        (generateInstructions baseUrl streamGroupId applicationId).data) ∧
    ("https://x.example/prod" ++ "?userId=Player1&applicationId=" ++ "a-1" ++
        "&location=us-east-2" : String) =
      "https://x.example/prod?userId=Player1&applicationId=a-1&location=us-east-2" ∧
    ("https://x.example/prod?userId=Player1&applicationId=a-1&location=us-east-2" : String).data
      <:+: (generateInstructions "https://x.example/prod" "sg-abc123456" "a-1").data := by
  have h1 : (instrPre.data.dropWhile isJsWhitespace).isEmpty = false := by decide
  have h2 : (instrPost.data.reverse.dropWhile isJsWhitespace).isEmpty = false := by decide
  have main : ∀ baseUrl streamGroupId applicationId : String,
      (baseUrl ++ "?userId=Player1&applicationId=" ++ applicationId ++
        "&location=us-east-2").data <:+:
        (generateInstructions baseUrl streamGroupId applicationId).data := by
    intro u g a
    have hmid := trimChars_append_middle instrPre.data
      (u.data ++ (instrQuery.data ++ (a.data ++ instrLoc.data)))
      instrPost.data h1 h2
    have hdata : (instrPre ++ u ++ instrQuery ++ a ++ instrLoc ++ instrPost).data =
        instrPre.data ++
          (u.data ++ (instrQuery.data ++ (a.data ++ instrLoc.data))) ++
            instrPost.data := by
      simp [String.data_append, List.append_assoc]
    have hform : (generateInstructions u g a).data =
        trimChars (instrPre.data ++
          (u.data ++ (instrQuery.data ++ (a.data ++ instrLoc.data))) ++
            instrPost.data) := by
      show trimChars ((instrPre ++ u ++ instrQuery ++ a ++ instrLoc ++ instrPost).data) = _
      exact congrArg trimChars hdata
    refine ⟨instrPre.data.dropWhile isJsWhitespace,
      (instrPost.data.reverse.dropWhile isJsWhitespace).reverse, ?_⟩
    rw [hform, hmid]
    simp [String.data_append, instrQuery, instrLoc, List.append_assoc]
  refine ⟨main, rfl, ?_⟩
  have h := main "https://x.example/prod" "sg-abc123456" "a-1"
  simpa using h

end GLS
